import Mathlib

/-!
Shallow embedding of the moestation PlayStation 2 emulator core
(EE CPU register file and scratchpad, EE branch logic, cycle scheduler,
interrupt controllers, IOP DMAC with the SIF0 engine, GS scanline loop,
CDVD N-command engine), together with theorems settling the claims
C1..C10 about it.

Machine integers are modelled as Nat (with explicit `% 2^w` where the
source relies on wrap-around) and Int for the C++ i64 fields; fallible
code (assert / fatal exit paths) returns Except.
-/

namespace Moestation

/-! ## Little-endian byte buffers

The EE scratchpad (`u8 spram[0x4000]` in ee/cpu/cpu.cpp) is accessed by
memcpy of 2/4/8/16-byte values; `storeBytes`/`loadBytes` model those
memcpys on a little-endian host, byte by byte. -/

/-- Little-endian store of the low `n` bytes of `data` at offset `off`,
as `memcpy(&buf[off], &data, n)` on a little-endian host. -/
def storeBytes (m : Nat → Nat) (off n data : Nat) : Nat → Nat :=
  match n with
  | 0 => m
  | k + 1 => storeBytes (Function.update m off (data % 256)) (off + 1) k (data / 256)

/-- Little-endian load of `n` bytes at offset `off`,
as `memcpy(&data, &buf[off], n)` on a little-endian host. -/
def loadBytes (m : Nat → Nat) (off n : Nat) : Nat :=
  match n with
  | 0 => 0
  | k + 1 => m off + 256 * loadBytes m (off + 1) k

theorem storeBytes_apply_lt (n : Nat) :
    ∀ (m : Nat → Nat) (off data a : Nat), a < off → storeBytes m off n data a = m a := by
  induction n with
  | zero => intro m off data a _; rfl
  | succ k ih =>
      intro m off data a h
      show storeBytes (Function.update m off (data % 256)) (off + 1) k (data / 256) a = m a
      rw [ih _ (off + 1) _ a (Nat.lt_succ_of_lt h)]
      exact Function.update_noteq (Nat.ne_of_lt h) _ m

theorem loadBytes_congr (n : Nat) :
    ∀ (m₁ m₂ : Nat → Nat) (off : Nat),
      (∀ a, off ≤ a → a < off + n → m₁ a = m₂ a) →
      loadBytes m₁ off n = loadBytes m₂ off n := by
  induction n with
  | zero => intro _ _ _ _; rfl
  | succ k ih =>
      intro m₁ m₂ off h
      show m₁ off + 256 * loadBytes m₁ (off + 1) k = m₂ off + 256 * loadBytes m₂ (off + 1) k
      rw [h off (Nat.le_refl _) (by omega), ih m₁ m₂ (off + 1) (fun a ha hb => h a (by omega) (by omega))]

theorem loadBytes_storeBytes (n : Nat) :
    ∀ (m : Nat → Nat) (off data : Nat),
      loadBytes (storeBytes m off n data) off n = data % 256 ^ n := by
  induction n with
  | zero => intro _ _ _; simp [loadBytes, storeBytes, Nat.mod_one]
  | succ k ih =>
      intro m off data
      show loadBytes (storeBytes (Function.update m off (data % 256)) (off + 1) k (data / 256)) off (k + 1)
        = data % 256 ^ (k + 1)
      have hfirst :
          storeBytes (Function.update m off (data % 256)) (off + 1) k (data / 256) off = data % 256 := by
        rw [storeBytes_apply_lt k _ (off + 1) _ off (Nat.lt_succ_self off)]
        exact Function.update_same off _ m
      show storeBytes (Function.update m off (data % 256)) (off + 1) k (data / 256) off
          + 256 * loadBytes (storeBytes (Function.update m off (data % 256)) (off + 1) k (data / 256)) (off + 1) k
        = data % 256 ^ (k + 1)
      rw [hfirst, ih _ (off + 1) (data / 256)]
      have h256 : 256 ^ (k + 1) = 256 * 256 ^ k := by ring
      rw [h256, Nat.mod_mul]

theorem loadBytes_storeBytes_of_lt (n : Nat) (m : Nat → Nat) (off data : Nat)
    (h : data < 256 ^ n) :
    loadBytes (storeBytes m off n data) off n = data := by
  rw [loadBytes_storeBytes, Nat.mod_eq_of_lt h]

/-- Value of the `u128` type of common/types.hpp: two 64-bit lanes. -/
structure U128 where
  lo : Nat
  hi : Nat
deriving DecidableEq, Repr

/-- Twos-complement reading of a `w`-bit value, used to state sign-extension
properties. -/
def toSigned (w x : Nat) : Int :=
  if x % 2 ^ w < 2 ^ (w - 1) then ((x % 2 ^ w : Nat) : Int)
  else ((x % 2 ^ w : Nat) : Int) - 2 ^ w

end Moestation

namespace Moestation.EECpu

/-! ## EE CPU register file (ee/cpu/cpu.cpp)

`u128 regs[34]` is modelled as a function from register index to `U128`. -/

/-- Store of `(i32)data` into a `u64` field, as in `regs[idx].lo = (i32)data`
(set32, cpu.cpp line 158): the low 32 bits sign-extended to a 64-bit pattern. -/
def sext32to64 (x : Nat) : Nat :=
  if x % 0x100000000 < 0x80000000 then x % 0x100000000
  else x % 0x100000000 + 0xFFFFFFFF00000000

/-- Embeds set32 (cpu.cpp): writes the sign-extended 32-bit value into the low
lane, leaves the high lane, then forces GPR 0 to zero. -/
def set32 (regs : Nat → U128) (idx data : Nat) : Nat → U128 :=
  let r := Function.update regs idx { lo := sext32to64 data, hi := (regs idx).hi }
  Function.update r 0 { lo := 0, hi := 0 }

/-- Embeds set64 (cpu.cpp): writes the doubleword into the low lane, leaves the
high lane, then forces GPR 0 to zero. `data` is a u64, taken mod 2^64. -/
def set64 (regs : Nat → U128) (idx data : Nat) : Nat → U128 :=
  let r := Function.update regs idx { lo := data % 2 ^ 64, hi := (regs idx).hi }
  Function.update r 0 { lo := 0, hi := 0 }

/-- Embeds set128 (cpu.cpp): writes both lanes, then forces GPR 0 to zero. -/
def set128 (regs : Nat → U128) (idx : Nat) (data : U128) : Nat → U128 :=
  let r := Function.update regs idx data
  Function.update r 0 { lo := 0, hi := 0 }

theorem sext32to64_lt (x : Nat) : sext32to64 x < 2 ^ 64 := by
  unfold sext32to64
  have : x % 0x100000000 < 0x100000000 := Nat.mod_lt _ (by norm_num)
  split <;> omega

theorem toSigned_sext32to64 (x : Nat) : toSigned 64 (sext32to64 x) = toSigned 32 x := by
  have hvlt : x % 0x100000000 < 0x100000000 := Nat.mod_lt _ (by norm_num)
  have h32 : x % 2 ^ 32 = x % 0x100000000 := by norm_num
  have p63 : (2 : Nat) ^ (64 - 1) = 0x8000000000000000 := by norm_num
  have p31 : (2 : Nat) ^ (32 - 1) = 0x80000000 := by norm_num
  unfold sext32to64 toSigned
  by_cases hc : x % 0x100000000 < 0x80000000
  · rw [if_pos hc]
    have e1 : x % 0x100000000 % 2 ^ 64 = x % 0x100000000 := Nat.mod_eq_of_lt (by omega)
    rw [e1, h32, p63, p31, if_pos (by omega), if_pos (by omega)]
  · rw [if_neg hc]
    have e1 : (x % 0x100000000 + 0xFFFFFFFF00000000) % 2 ^ 64
        = x % 0x100000000 + 0xFFFFFFFF00000000 := Nat.mod_eq_of_lt (by omega)
    rw [e1, h32, p63, p31]
    rw [if_neg (by omega), if_neg (by omega)]
    push_cast
    omega

end Moestation.EECpu

namespace Moestation

open EECpu

/-- Claim C6: set32 stores the 32-bit value sign-extended to 64 bits into the
low lane and leaves the high lane unchanged, set64 stores the doubleword into
the low lane leaving the high lane unchanged, set128 writes both lanes; and
after each setter returns, both lanes of GPR 0 are zero. -/
theorem c6_gpr_setters (regs : Nat → U128) (idx v v64 : Nat) (d : U128)
    (hidx : idx < 34) (hv64 : v64 < 2 ^ 64) :
    (idx ≠ 0 →
      (set32 regs idx v idx).lo < 2 ^ 64 ∧
      toSigned 64 (set32 regs idx v idx).lo = toSigned 32 v ∧
      (set32 regs idx v idx).hi = (regs idx).hi) ∧
    (idx ≠ 0 → set64 regs idx v64 idx = { lo := v64, hi := (regs idx).hi }) ∧
    (idx ≠ 0 → set128 regs idx d idx = d) ∧
    set32 regs idx v 0 = { lo := 0, hi := 0 } ∧
    set64 regs idx v64 0 = { lo := 0, hi := 0 } ∧
    set128 regs idx d 0 = { lo := 0, hi := 0 } := by
  refine ⟨?_, ?_, ?_, ?_, ?_, ?_⟩
  · intro h0
    have hup : set32 regs idx v idx = { lo := sext32to64 v, hi := (regs idx).hi } := by
      unfold set32
      rw [Function.update_noteq h0 _ _, Function.update_same]
    rw [hup]
    exact ⟨sext32to64_lt v, toSigned_sext32to64 v, rfl⟩
  · intro h0
    unfold set64
    rw [Function.update_noteq h0 _ _, Function.update_same, Nat.mod_eq_of_lt hv64]
  · intro h0
    unfold set128
    rw [Function.update_noteq h0 _ _, Function.update_same]
  · unfold set32; rw [Function.update_same]
  · unfold set64; rw [Function.update_same]
  · unfold set128; rw [Function.update_same]

/-- Sample register file used by witnesses. -/
def sampleRegs : Nat → U128 := fun _ => { lo := 7, hi := 9 }

/-- Bit masks below `2 ^ k` ignore everything above the low `k` bits, so two
addresses that agree mod `2 ^ k` mask identically. -/
theorem and_mask_eq_of_mod_eq {a b mask k : Nat} (hm : mask < 2 ^ k)
    (hab : a % 2 ^ k = b % 2 ^ k) : a &&& mask = b &&& mask := by
  apply Nat.eq_of_testBit_eq
  intro i
  rw [Nat.testBit_and, Nat.testBit_and]
  by_cases hi : i < k
  · have ha : a.testBit i = (a % 2 ^ k).testBit i := by
      rw [Nat.testBit_mod_two_pow, decide_eq_true hi, Bool.true_and]
    have hb : b.testBit i = (b % 2 ^ k).testBit i := by
      rw [Nat.testBit_mod_two_pow, decide_eq_true hi, Bool.true_and]
    rw [ha, hb, hab]
  · have hmask : mask.testBit i = false :=
      Nat.testBit_lt_two_pow (lt_of_lt_of_le hm (Nat.pow_le_pow_right (by norm_num) (by omega)))
    rw [hmask, Bool.and_false, Bool.and_false]

/-- Witness for C6 at idx = 1, v = 0x80000001, v64 = 3, d = (1, 2). -/
theorem c6_gpr_setters_witness :
    ((1 : Nat) < 34 ∧ (3 : Nat) < 2 ^ 64) ∧
    (((1 : Nat) ≠ 0 →
      (set32 sampleRegs 1 0x80000001 1).lo < 2 ^ 64 ∧
      toSigned 64 (set32 sampleRegs 1 0x80000001 1).lo = toSigned 32 0x80000001 ∧
      (set32 sampleRegs 1 0x80000001 1).hi = (sampleRegs 1).hi) ∧
    ((1 : Nat) ≠ 0 → set64 sampleRegs 1 3 1 = { lo := 3, hi := (sampleRegs 1).hi }) ∧
    ((1 : Nat) ≠ 0 → set128 sampleRegs 1 { lo := 1, hi := 2 } 1 = { lo := 1, hi := 2 }) ∧
    set32 sampleRegs 1 0x80000001 0 = { lo := 0, hi := 0 } ∧
    set64 sampleRegs 1 3 0 = { lo := 0, hi := 0 } ∧
    set128 sampleRegs 1 { lo := 1, hi := 2 } 0 = { lo := 0, hi := 0 }) :=
  ⟨⟨by decide, by norm_num⟩,
    c6_gpr_setters sampleRegs 1 0x80000001 3 { lo := 1, hi := 2 } (by decide) (by norm_num)⟩

end Moestation

namespace Moestation.EECpu

/-! ## EE CPU memory accessors (ee/cpu/cpu.cpp)

Any effective address whose top nibble is 7 is served by the 16 KiB
scratchpad (`spram`, mirrored through the low 14 address bits); any other
address is translated (`addr &= (1 << 29) - 1`, fatal for the TLB-mapped
region at and above 0xFFFF8000) and routed to the bus. The widths above
8 bits assert alignment before dispatching. -/

/-- Result of an EE CPU memory read. -/
inductive ReadRes (α : Type) where
  | fromSPRAM (val : α)
  | fromBus (physAddr : Nat)
  | fatal
deriving DecidableEq, Repr

/-- Result of an EE CPU memory write. -/
inductive WriteRes where
  | toSPRAM (spram : Nat → Nat)
  | toBus (physAddr data : Nat)
  | fatal

/-- Embeds translateAddr (cpu.cpp): fatal above 0xFFFF8000, else KSEG unmirror. -/
def translateAddr (addr : Nat) : Option Nat :=
  if 0xFFFF8000 ≤ addr then none else some (addr &&& ((1 <<< 29) - 1))

/-- Embeds readSPRAM8. -/
def readSPRAM8 (m : Nat → Nat) (addr : Nat) : Nat := m (addr &&& 0x3FFF)

/-- Embeds readSPRAM16 (memcpy of 2 bytes at the masked offset). -/
def readSPRAM16 (m : Nat → Nat) (addr : Nat) : Nat := loadBytes m (addr &&& 0x3FFE) 2

/-- Embeds readSPRAM32. -/
def readSPRAM32 (m : Nat → Nat) (addr : Nat) : Nat := loadBytes m (addr &&& 0x3FFC) 4

/-- Embeds readSPRAM64. -/
def readSPRAM64 (m : Nat → Nat) (addr : Nat) : Nat := loadBytes m (addr &&& 0x3FF8) 8

/-- Embeds readSPRAM128 (two 64-bit lanes, low lane first). -/
def readSPRAM128 (m : Nat → Nat) (addr : Nat) : U128 :=
  { lo := loadBytes m (addr &&& 0x3FF0) 8, hi := loadBytes m ((addr &&& 0x3FF0) + 8) 8 }

/-- Embeds writeSPRAM8 (`spram[addr] = data` truncates the u32 to a byte). -/
def writeSPRAM8 (m : Nat → Nat) (addr data : Nat) : Nat → Nat :=
  Function.update m (addr &&& 0x3FFF) (data % 256)

/-- Embeds writeSPRAM16. -/
def writeSPRAM16 (m : Nat → Nat) (addr data : Nat) : Nat → Nat :=
  storeBytes m (addr &&& 0x3FFE) 2 data

/-- Embeds writeSPRAM32. -/
def writeSPRAM32 (m : Nat → Nat) (addr data : Nat) : Nat → Nat :=
  storeBytes m (addr &&& 0x3FFC) 4 data

/-- Embeds writeSPRAM64. -/
def writeSPRAM64 (m : Nat → Nat) (addr data : Nat) : Nat → Nat :=
  storeBytes m (addr &&& 0x3FF8) 8 data

/-- Embeds writeSPRAM128 (low lane bytes first, then the high lane). -/
def writeSPRAM128 (m : Nat → Nat) (addr : Nat) (data : U128) : Nat → Nat :=
  storeBytes (storeBytes m (addr &&& 0x3FF0) 8 data.lo) ((addr &&& 0x3FF0) + 8) 8 data.hi

/-- Embeds read8: scratchpad if the top nibble is 7, else the bus. -/
def read8 (m : Nat → Nat) (addr : Nat) : ReadRes Nat :=
  if addr >>> 28 = 0x7 then .fromSPRAM (readSPRAM8 m addr)
  else match translateAddr addr with
    | none => .fatal
    | some pa => .fromBus pa

/-- Embeds read16 (asserts 2-byte alignment). -/
def read16 (m : Nat → Nat) (addr : Nat) : ReadRes Nat :=
  if addr &&& 1 ≠ 0 then .fatal
  else if addr >>> 28 = 0x7 then .fromSPRAM (readSPRAM16 m addr)
  else match translateAddr addr with
    | none => .fatal
    | some pa => .fromBus pa

/-- Embeds read32 (asserts 4-byte alignment). -/
def read32 (m : Nat → Nat) (addr : Nat) : ReadRes Nat :=
  if addr &&& 3 ≠ 0 then .fatal
  else if addr >>> 28 = 0x7 then .fromSPRAM (readSPRAM32 m addr)
  else match translateAddr addr with
    | none => .fatal
    | some pa => .fromBus pa

/-- Embeds read64 (asserts 8-byte alignment). -/
def read64 (m : Nat → Nat) (addr : Nat) : ReadRes Nat :=
  if addr &&& 7 ≠ 0 then .fatal
  else if addr >>> 28 = 0x7 then .fromSPRAM (readSPRAM64 m addr)
  else match translateAddr addr with
    | none => .fatal
    | some pa => .fromBus pa

/-- Embeds read128 (asserts 16-byte alignment). -/
def read128 (m : Nat → Nat) (addr : Nat) : ReadRes U128 :=
  if addr &&& 15 ≠ 0 then .fatal
  else if addr >>> 28 = 0x7 then .fromSPRAM (readSPRAM128 m addr)
  else match translateAddr addr with
    | none => .fatal
    | some pa => .fromBus pa

/-- Embeds write8. -/
def write8 (m : Nat → Nat) (addr data : Nat) : WriteRes :=
  if addr >>> 28 = 0x7 then .toSPRAM (writeSPRAM8 m addr data)
  else match translateAddr addr with
    | none => .fatal
    | some pa => .toBus pa (data % 256)

/-- Embeds write16 (asserts 2-byte alignment). -/
def write16 (m : Nat → Nat) (addr data : Nat) : WriteRes :=
  if addr &&& 1 ≠ 0 then .fatal
  else if addr >>> 28 = 0x7 then .toSPRAM (writeSPRAM16 m addr data)
  else match translateAddr addr with
    | none => .fatal
    | some pa => .toBus pa (data % 2 ^ 16)

/-- Embeds write32 (asserts 4-byte alignment). -/
def write32 (m : Nat → Nat) (addr data : Nat) : WriteRes :=
  if addr &&& 3 ≠ 0 then .fatal
  else if addr >>> 28 = 0x7 then .toSPRAM (writeSPRAM32 m addr data)
  else match translateAddr addr with
    | none => .fatal
    | some pa => .toBus pa (data % 2 ^ 32)

/-- Embeds write64 (asserts 8-byte alignment). -/
def write64 (m : Nat → Nat) (addr data : Nat) : WriteRes :=
  if addr &&& 7 ≠ 0 then .fatal
  else if addr >>> 28 = 0x7 then .toSPRAM (writeSPRAM64 m addr data)
  else match translateAddr addr with
    | none => .fatal
    | some pa => .toBus pa (data % 2 ^ 64)

/-- Result of a 128-bit EE CPU write (the data is a U128). -/
inductive WriteRes128 where
  | toSPRAM (spram : Nat → Nat)
  | toBus (physAddr : Nat) (data : U128)
  | fatal

/-- Embeds write128 (asserts 16-byte alignment). -/
def write128 (m : Nat → Nat) (addr : Nat) (data : U128) : WriteRes128 :=
  if addr &&& 15 ≠ 0 then .fatal
  else if addr >>> 28 = 0x7 then .toSPRAM (writeSPRAM128 m addr data)
  else match translateAddr addr with
    | none => .fatal
    | some pa => .toBus pa data

end Moestation.EECpu

namespace Moestation

open EECpu

theorem and_one_eq (a : Nat) : a &&& 1 = a % 2 := Nat.and_one_is_mod a

theorem and_three_eq (a : Nat) : a &&& 3 = a % 4 := by
  have h := Nat.and_pow_two_sub_one_eq_mod a 2
  norm_num at h
  exact h

theorem and_seven_eq (a : Nat) : a &&& 7 = a % 8 := by
  have h := Nat.and_pow_two_sub_one_eq_mod a 3
  norm_num at h
  exact h

theorem and_fifteen_eq (a : Nat) : a &&& 15 = a % 16 := by
  have h := Nat.and_pow_two_sub_one_eq_mod a 4
  norm_num at h
  exact h

/-- Claim C9: for every width N in 8/16/32/64/128, every value, and every pair
of effective addresses with top nibble 7 that agree modulo 0x4000 on an
N-aligned offset, a CPU write at one address followed by a CPU read at the
other returns the written value, and neither access touches the bus (both are
served by the scratchpad). -/
theorem c9_spram_alias_roundtrip (m : Nat → Nat) (a b : Nat)
    (ha : a >>> 28 = 0x7) (hb : b >>> 28 = 0x7) (hab : a % 0x4000 = b % 0x4000) :
    (∀ w, w < 2 ^ 8 →
      write8 m a w = .toSPRAM (writeSPRAM8 m a w) ∧
      read8 (writeSPRAM8 m a w) b = .fromSPRAM w) ∧
    (∀ w, w < 2 ^ 16 → a % 2 = 0 →
      write16 m a w = .toSPRAM (writeSPRAM16 m a w) ∧
      read16 (writeSPRAM16 m a w) b = .fromSPRAM w) ∧
    (∀ w, w < 2 ^ 32 → a % 4 = 0 →
      write32 m a w = .toSPRAM (writeSPRAM32 m a w) ∧
      read32 (writeSPRAM32 m a w) b = .fromSPRAM w) ∧
    (∀ w, w < 2 ^ 64 → a % 8 = 0 →
      write64 m a w = .toSPRAM (writeSPRAM64 m a w) ∧
      read64 (writeSPRAM64 m a w) b = .fromSPRAM w) ∧
    (∀ d : U128, d.lo < 2 ^ 64 → d.hi < 2 ^ 64 → a % 16 = 0 →
      write128 m a d = .toSPRAM (writeSPRAM128 m a d) ∧
      read128 (writeSPRAM128 m a d) b = .fromSPRAM d) := by
  have hab14 : a % 2 ^ 14 = b % 2 ^ 14 := by simpa using hab
  have halign : ∀ k, k ∣ 0x4000 → a % k = 0 → b % k = 0 := by
    intro k hk h0
    have hbk : b % 0x4000 % k = b % k := Nat.mod_mod_of_dvd b hk
    have hak : a % 0x4000 % k = a % k := Nat.mod_mod_of_dvd a hk
    rw [← hbk, ← hab, hak, h0]
  refine ⟨?_, ?_, ?_, ?_, ?_⟩
  · intro w hw
    constructor
    · unfold write8
      rw [if_pos ha]
    · unfold read8
      rw [if_pos hb]
      have hmask : a &&& 0x3FFF = b &&& 0x3FFF := and_mask_eq_of_mod_eq (by norm_num) hab14
      unfold readSPRAM8 writeSPRAM8
      rw [← hmask, Function.update_same, Nat.mod_eq_of_lt (by norm_num at hw ⊢; exact hw)]
  · intro w hw hal
    have hbl : b % 2 = 0 := halign 2 (by norm_num) hal
    have ea : a &&& 1 = 0 := by rw [and_one_eq]; exact hal
    have eb : b &&& 1 = 0 := by rw [and_one_eq]; exact hbl
    constructor
    · unfold write16
      rw [ea, if_neg (by norm_num), if_pos ha]
    · unfold read16
      rw [eb, if_neg (by norm_num), if_pos hb]
      have hmask : a &&& 0x3FFE = b &&& 0x3FFE := and_mask_eq_of_mod_eq (by norm_num) hab14
      unfold readSPRAM16 writeSPRAM16
      have h256 : w < 256 ^ 2 := by
        have e1 : (2 : Nat) ^ 16 = 65536 := by norm_num
        have e2 : (256 : Nat) ^ 2 = 65536 := by norm_num
        omega
      rw [← hmask, loadBytes_storeBytes_of_lt 2 m (a &&& 0x3FFE) w h256]
  · intro w hw hal
    have hbl : b % 4 = 0 := halign 4 (by norm_num) hal
    have ea : a &&& 3 = 0 := by rw [and_three_eq]; exact hal
    have eb : b &&& 3 = 0 := by rw [and_three_eq]; exact hbl
    constructor
    · unfold write32
      rw [ea, if_neg (by norm_num), if_pos ha]
    · unfold read32
      rw [eb, if_neg (by norm_num), if_pos hb]
      have hmask : a &&& 0x3FFC = b &&& 0x3FFC := and_mask_eq_of_mod_eq (by norm_num) hab14
      unfold readSPRAM32 writeSPRAM32
      have h256 : w < 256 ^ 4 := by
        have e1 : (2 : Nat) ^ 32 = 4294967296 := by norm_num
        have e2 : (256 : Nat) ^ 4 = 4294967296 := by norm_num
        omega
      rw [← hmask, loadBytes_storeBytes_of_lt 4 m (a &&& 0x3FFC) w h256]
  · intro w hw hal
    have hbl : b % 8 = 0 := halign 8 (by norm_num) hal
    have ea : a &&& 7 = 0 := by rw [and_seven_eq]; exact hal
    have eb : b &&& 7 = 0 := by rw [and_seven_eq]; exact hbl
    constructor
    · unfold write64
      rw [ea, if_neg (by norm_num), if_pos ha]
    · unfold read64
      rw [eb, if_neg (by norm_num), if_pos hb]
      have hmask : a &&& 0x3FF8 = b &&& 0x3FF8 := and_mask_eq_of_mod_eq (by norm_num) hab14
      unfold readSPRAM64 writeSPRAM64
      have h256 : w < 256 ^ 8 := by
        have e1 : (2 : Nat) ^ 64 = 18446744073709551616 := by norm_num
        have e2 : (256 : Nat) ^ 8 = 18446744073709551616 := by norm_num
        omega
      rw [← hmask, loadBytes_storeBytes_of_lt 8 m (a &&& 0x3FF8) w h256]
  · intro d hlo hhi hal
    have hbl : b % 16 = 0 := halign 16 (by norm_num) hal
    have ea : a &&& 15 = 0 := by rw [and_fifteen_eq]; exact hal
    have eb : b &&& 15 = 0 := by rw [and_fifteen_eq]; exact hbl
    constructor
    · unfold write128
      rw [ea, if_neg (by norm_num), if_pos ha]
    · unfold read128
      rw [eb, if_neg (by norm_num), if_pos hb]
      have hmask : a &&& 0x3FF0 = b &&& 0x3FF0 := and_mask_eq_of_mod_eq (by norm_num) hab14
      unfold readSPRAM128 writeSPRAM128
      rw [← hmask]
      have e64 : (2 : Nat) ^ 64 = 18446744073709551616 := by norm_num
      have e256 : (256 : Nat) ^ 8 = 18446744073709551616 := by norm_num
      have hlo256 : d.lo < 256 ^ 8 := by omega
      have hhi256 : d.hi < 256 ^ 8 := by omega
      have hhis : loadBytes
          (storeBytes (storeBytes m (a &&& 0x3FF0) 8 d.lo) ((a &&& 0x3FF0) + 8) 8 d.hi)
          ((a &&& 0x3FF0) + 8) 8 = d.hi :=
        loadBytes_storeBytes_of_lt 8 _ _ _ hhi256
      have hlos : loadBytes
          (storeBytes (storeBytes m (a &&& 0x3FF0) 8 d.lo) ((a &&& 0x3FF0) + 8) 8 d.hi)
          (a &&& 0x3FF0) 8 = d.lo := by
        rw [loadBytes_congr 8 _ (storeBytes m (a &&& 0x3FF0) 8 d.lo) (a &&& 0x3FF0)
          (fun x hx1 hx2 => storeBytes_apply_lt 8 _ _ _ x (by omega))]
        exact loadBytes_storeBytes_of_lt 8 _ _ _ hlo256
      rw [hhis, hlos]

/-- Witness for C9: addresses 0x70012340 and 0x7FFF2340 agree on the low 14
bits; a 32-bit write at the first followed by a read at the second returns the
written word, both served by the scratchpad. -/
theorem c9_spram_alias_roundtrip_witness :
    ((0x70012340 : Nat) >>> 28 = 0x7 ∧ (0x7FFF2340 : Nat) >>> 28 = 0x7 ∧
      (0x70012340 : Nat) % 0x4000 = (0x7FFF2340 : Nat) % 0x4000 ∧
      (0xCAFE0001 : Nat) < 2 ^ 32 ∧ (0x70012340 : Nat) % 4 = 0) ∧
    (EECpu.write32 (fun _ => 0) 0x70012340 0xCAFE0001
        = .toSPRAM (EECpu.writeSPRAM32 (fun _ => 0) 0x70012340 0xCAFE0001) ∧
      EECpu.read32 (EECpu.writeSPRAM32 (fun _ => 0) 0x70012340 0xCAFE0001) 0x7FFF2340
        = .fromSPRAM 0xCAFE0001) :=
  ⟨⟨by decide, by decide, by decide, by norm_num, by decide⟩,
    (c9_spram_alias_roundtrip (fun _ => 0) 0x70012340 0x7FFF2340
      (by decide) (by decide) (by decide)).2.2.1 0xCAFE0001 (by norm_num) (by decide)⟩

end Moestation

namespace Moestation.EECpu

/-! ## EE branch execution (ee/cpu/cpu.cpp doBranch, setPC, setBranchPC) -/

/-- Fatal errors of the EE branch path; each is an `exit(0)` with a log line
in the source. -/
inductive BranchErr where
  | branchInDelaySlot
  | jumpToZero
  | misalignedPC
deriving DecidableEq, Repr

/-- EE CPU control state used by doBranch: the GPR file, pc/npc and the
two-slot branch-delay tracker `inDelaySlot`. -/
structure CPUState where
  regs : Nat → U128
  pc : Nat
  npc : Nat
  inDelaySlot0 : Bool
  inDelaySlot1 : Bool

/-- Embeds setPC (cpu.cpp): fatal on a zero or misaligned address, else
pc = addr and npc = addr + 4. -/
def setPC (s : CPUState) (addr : Nat) : Except BranchErr CPUState :=
  if addr = 0 then .error .jumpToZero
  else if addr &&& 3 ≠ 0 then .error .misalignedPC
  else .ok { s with pc := addr, npc := (addr + 4) % 2 ^ 32 }

/-- Embeds setBranchPC (cpu.cpp): fatal on a zero or misaligned address, else
npc = addr. -/
def setBranchPC (s : CPUState) (addr : Nat) : Except BranchErr CPUState :=
  if addr = 0 then .error .jumpToZero
  else if addr &&& 3 ≠ 0 then .error .misalignedPC
  else .ok { s with npc := addr }

/-- Embeds doBranch (cpu.cpp lines 465-483): fatal if executed in a delay
slot; otherwise writes npc to the link register via set32, sets delay slot 1,
then either branches (condition true) or, for a not-taken likely branch,
skips the delay slot and clears slot 1. -/
def doBranch (s : CPUState) (target : Nat) (isCond : Bool) (rd : Nat)
    (isLikely : Bool) : Except BranchErr CPUState :=
  if s.inDelaySlot0 then .error .branchInDelaySlot
  else
    let s₁ := { s with regs := set32 s.regs rd s.npc, inDelaySlot1 := true }
    if isCond then setBranchPC s₁ target
    else if isLikely then
      match setPC s₁ s₁.npc with
      | .error e => .error e
      | .ok s₂ => .ok { s₂ with inDelaySlot1 := false }
    else .ok s₁

theorem set32_at (regs : Nat → U128) (idx data : Nat) (h : idx ≠ 0) :
    set32 regs idx data idx = { lo := sext32to64 data, hi := (regs idx).hi } := by
  unfold set32
  rw [Function.update_noteq h _ _, Function.update_same]

end Moestation.EECpu

namespace Moestation

open EECpu

/-- Sample EE CPU state with the delay-slot tracker clear, used by the C3
counterexample and witness. -/
def branchFreeState : CPUState :=
  { regs := sampleRegs, pc := 0xBFC00000, npc := 0xBFC00004,
    inDelaySlot0 := false, inDelaySlot1 := false }

/-- Sample EE CPU state currently inside a delay slot. -/
def branchSlotState : CPUState :=
  { regs := sampleRegs, pc := 0xBFC00000, npc := 0xBFC00004,
    inDelaySlot0 := true, inDelaySlot1 := false }

/-- Counterexample to claim C3: with slot 0 clear, a taken branch to target 0
still aborts (jump-to-zero is fatal in setBranchPC), so a branch with
slot[0] = false does not always run without aborting. -/
theorem c3_branch_counterexample :
    branchFreeState.inDelaySlot0 = false ∧
    doBranch branchFreeState 0 true 31 false = .error .jumpToZero :=
  ⟨rfl, rfl⟩

/-- Claim C3 (amended): a branch in a delay slot always aborts with the
branch-in-delay-slot error; a branch with slot[0] clear does not abort
provided the target is nonzero and 4-byte aligned when the condition holds
(respectively npc is nonzero and aligned for a not-taken likely branch), and
then writes npc (sign-extended by set32) to the link register, sets slot 1,
sets npc to the target when the condition holds, and skips the delay slot for
a not-taken likely branch. -/
theorem c3_branch_delay_slot (s : CPUState) (target rd : Nat)
    (isCond isLikely : Bool) :
    (s.inDelaySlot0 = true →
      doBranch s target isCond rd isLikely = .error .branchInDelaySlot) ∧
    (s.inDelaySlot0 = false →
      (isCond = true → target ≠ 0 ∧ target % 4 = 0) →
      (isCond = false → isLikely = true → s.npc ≠ 0 ∧ s.npc % 4 = 0) →
      ∃ s₂, doBranch s target isCond rd isLikely = .ok s₂ ∧
        (rd ≠ 0 → s₂.regs rd = { lo := sext32to64 s.npc, hi := (s.regs rd).hi }) ∧
        s₂.regs 0 = { lo := 0, hi := 0 } ∧
        (isCond = true → s₂.npc = target ∧ s₂.inDelaySlot1 = true ∧ s₂.pc = s.pc) ∧
        (isCond = false → isLikely = true →
          s₂.pc = s.npc ∧ s₂.npc = (s.npc + 4) % 2 ^ 32 ∧ s₂.inDelaySlot1 = false) ∧
        (isCond = false → isLikely = false →
          s₂.pc = s.pc ∧ s₂.npc = s.npc ∧ s₂.inDelaySlot1 = true)) := by
  constructor
  · intro h0
    unfold doBranch
    rw [if_pos (by rw [h0])]
  · intro h0 htgt hnpc
    have hregs : ∀ s₂ : CPUState, s₂.regs = set32 s.regs rd s.npc →
        (rd ≠ 0 → s₂.regs rd = { lo := sext32to64 s.npc, hi := (s.regs rd).hi }) ∧
        s₂.regs 0 = { lo := 0, hi := 0 } := by
      intro s₂ he
      rw [he]
      refine ⟨fun hr => set32_at s.regs rd s.npc hr, ?_⟩
      unfold set32
      rw [Function.update_same]
    unfold doBranch
    rw [if_neg (by rw [h0]; exact Bool.false_ne_true)]
    cases hc : isCond with
    | true =>
        obtain ⟨ht0, ht4⟩ := htgt hc
        rw [if_pos rfl]
        unfold setBranchPC
        rw [if_neg ht0, if_neg (by rw [and_three_eq]; omega)]
        refine ⟨_, rfl, ?_, ?_, ?_, ?_, ?_⟩
        · exact (hregs _ rfl).1
        · exact (hregs _ rfl).2
        · exact fun _ => ⟨rfl, rfl, rfl⟩
        · intro hf; exact absurd hf (by simp)
        · intro hf; exact absurd hf (by simp)
    | false =>
        rw [if_neg Bool.false_ne_true]
        cases hl : isLikely with
        | true =>
            obtain ⟨hn0, hn4⟩ := hnpc hc hl
            rw [if_pos rfl]
            unfold setPC
            simp only
            rw [if_neg hn0, if_neg (by rw [and_three_eq]; omega)]
            refine ⟨_, rfl, ?_, ?_, ?_, ?_, ?_⟩
            · exact (hregs _ rfl).1
            · exact (hregs _ rfl).2
            · intro hf; exact absurd hf (by simp)
            · exact fun _ _ => ⟨rfl, rfl, rfl⟩
            · intro _ hf; exact absurd hf (by simp)
        | false =>
            rw [if_neg Bool.false_ne_true]
            refine ⟨_, rfl, ?_, ?_, ?_, ?_, ?_⟩
            · exact (hregs _ rfl).1
            · exact (hregs _ rfl).2
            · intro hf; exact absurd hf (by simp)
            · intro _ hf; exact absurd hf (by simp)
            · exact fun _ _ => ⟨rfl, rfl, rfl⟩

/-- Witness for the amended C3: a taken branch to 0xBFC00008 from a state with
slot[0] clear succeeds, links into register 31 and sets npc to the target. -/
theorem c3_branch_delay_slot_witness :
    branchFreeState.inDelaySlot0 = false ∧
    ∃ s₂, doBranch branchFreeState 0xBFC00008 true 31 false = .ok s₂ ∧
      ((31 : Nat) ≠ 0 →
        s₂.regs 31 = { lo := sext32to64 branchFreeState.npc,
                       hi := (branchFreeState.regs 31).hi }) ∧
      s₂.regs 0 = { lo := 0, hi := 0 } ∧
      (true = true → s₂.npc = 0xBFC00008 ∧ s₂.inDelaySlot1 = true ∧
        s₂.pc = branchFreeState.pc) ∧
      (true = false → false = true →
        s₂.pc = branchFreeState.npc ∧
        s₂.npc = (branchFreeState.npc + 4) % 2 ^ 32 ∧ s₂.inDelaySlot1 = false) ∧
      (true = false → false = false →
        s₂.pc = branchFreeState.pc ∧ s₂.npc = branchFreeState.npc ∧
        s₂.inDelaySlot1 = true) :=
  ⟨rfl, (c3_branch_delay_slot branchFreeState 0xBFC00008 31 true false).2 rfl
    (fun _ => ⟨by decide, by decide⟩) (fun hf _ => Bool.noConfusion hf)⟩

end Moestation

namespace Moestation.Sched

/-! ## Cycle scheduler (core/scheduler.cpp) -/

/-- Scheduler event (scheduler.cpp struct Event): callback id, parameter and
the i64 cycles-until-fire counter. -/
structure Event where
  id : Nat
  param : Int
  cyclesUntilEvent : Int
deriving DecidableEq, Repr

/-- INT64_MAX, the starting accumulator of reschedule. -/
def I64MAX : Int := 9223372036854775807

/-- Embeds reschedule (scheduler.cpp): sweeps the event deque keeping the
strictly smaller cyclesUntilEvent, starting from INT64_MAX, and returns the
new cyclesUntilNextEvent. -/
def reschedule (events : List Event) : Int :=
  events.foldl (fun acc e => if e.cyclesUntilEvent < acc then e.cyclesUntilEvent else acc) I64MAX

/-- Scheduler state: the event deque and the cached cycle counters. -/
structure SchedState where
  events : List Event
  cycleCount : Int
  cyclesUntilNextEvent : Int

/-- Embeds addEvent (scheduler.cpp): asserts cycles nonnegative, pushes the
new event at the front of the deque, and recomputes cyclesUntilNextEvent when
doReschedule is set. -/
def addEvent (s : SchedState) (id : Nat) (param cycles : Int)
    (doReschedule : Bool) : Except Unit SchedState :=
  if cycles < 0 then .error ()
  else
    let events := { id := id, param := param, cyclesUntilEvent := cycles } :: s.events
    .ok { s with
          events := events,
          cyclesUntilNextEvent :=
            if doReschedule then reschedule events else s.cyclesUntilNextEvent }

theorem foldl_min_le (l : List Event) :
    ∀ init : Int,
      l.foldl (fun acc e => if e.cyclesUntilEvent < acc then e.cyclesUntilEvent else acc) init
          ≤ init ∧
      ∀ e ∈ l,
        l.foldl (fun acc e => if e.cyclesUntilEvent < acc then e.cyclesUntilEvent else acc) init
          ≤ e.cyclesUntilEvent := by
  induction l with
  | nil => intro init; exact ⟨le_refl _, fun e he => absurd he (List.not_mem_nil e)⟩
  | cons x xs ih =>
      intro init
      simp only [List.foldl_cons]
      constructor
      · refine le_trans (ih _).1 ?_
        split <;> omega
      · intro e he
        rcases List.mem_cons.mp he with he | he
        · subst he
          refine le_trans (ih _).1 ?_
          split <;> omega
        · exact (ih _).2 e he

theorem foldl_min_mem (l : List Event) :
    ∀ init : Int,
      l.foldl (fun acc e => if e.cyclesUntilEvent < acc then e.cyclesUntilEvent else acc) init
          = init ∨
      ∃ e ∈ l,
        l.foldl (fun acc e => if e.cyclesUntilEvent < acc then e.cyclesUntilEvent else acc) init
          = e.cyclesUntilEvent := by
  induction l with
  | nil => intro init; exact Or.inl rfl
  | cons x xs ih =>
      intro init
      simp only [List.foldl_cons]
      by_cases hx : x.cyclesUntilEvent < init
      · rw [if_pos hx]
        rcases ih x.cyclesUntilEvent with h | ⟨e, he, hfe⟩
        · exact Or.inr ⟨x, List.mem_cons_self x xs, h⟩
        · exact Or.inr ⟨e, List.mem_cons_of_mem x he, hfe⟩
      · rw [if_neg hx]
        rcases ih init with h | ⟨e, he, hfe⟩
        · exact Or.inl h
        · exact Or.inr ⟨e, List.mem_cons_of_mem x he, hfe⟩

end Moestation.Sched

namespace Moestation

open Sched

/-- Claim C4: after every addEvent with doReschedule = true (on events whose
counters are representable i64 values), cyclesUntilNextEvent equals the
minimum of cyclesUntilEvent over all events now in the set, the newly
inserted one included: it is a lower bound attained by some event. -/
theorem c4_addEvent_min (s : SchedState) (id : Nat) (param cycles : Int)
    (hc : 0 ≤ cycles) (hcmax : cycles ≤ I64MAX) :
    ∃ s₂, addEvent s id param cycles true = .ok s₂ ∧
      s₂.events = { id := id, param := param, cyclesUntilEvent := cycles } :: s.events ∧
      (∀ e ∈ s₂.events, s₂.cyclesUntilNextEvent ≤ e.cyclesUntilEvent) ∧
      (∃ e ∈ s₂.events, s₂.cyclesUntilNextEvent = e.cyclesUntilEvent) := by
  unfold addEvent
  rw [if_neg (by omega)]
  refine ⟨_, rfl, rfl, ?_, ?_⟩
  · intro e he
    simp only [if_pos trivial]
    exact (foldl_min_le _ I64MAX).2 e he
  · simp only [if_pos trivial]
    rcases foldl_min_mem
        ({ id := id, param := param, cyclesUntilEvent := cycles } :: s.events) I64MAX with h | h
    · have hle := (foldl_min_le
        ({ id := id, param := param, cyclesUntilEvent := cycles } :: s.events) I64MAX).2
          { id := id, param := param, cyclesUntilEvent := cycles } (List.mem_cons_self _ _)
      refine ⟨{ id := id, param := param, cyclesUntilEvent := cycles },
        List.mem_cons_self _ _, ?_⟩
      unfold reschedule
      dsimp only at hle ⊢
      omega
    · exact h

/-- Sample scheduler state used by the C4 witness. -/
def sampleSched : SchedState :=
  { events := [{ id := 0, param := 0, cyclesUntilEvent := 100 },
               { id := 1, param := 0, cyclesUntilEvent := 50 }],
    cycleCount := 0, cyclesUntilNextEvent := 50 }

/-- Witness for C4: inserting a 30-cycle event with doReschedule makes 30 the
new cached minimum. -/
theorem c4_addEvent_min_witness :
    ((0 : Int) ≤ 30 ∧ (30 : Int) ≤ I64MAX) ∧
    ∃ s₂, addEvent sampleSched 2 0 30 true = .ok s₂ ∧
      s₂.events = { id := 2, param := 0, cyclesUntilEvent := 30 } :: sampleSched.events ∧
      (∀ e ∈ s₂.events, s₂.cyclesUntilNextEvent ≤ e.cyclesUntilEvent) ∧
      (∃ e ∈ s₂.events, s₂.cyclesUntilNextEvent = e.cyclesUntilEvent) :=
  ⟨⟨by norm_num, by norm_num [I64MAX]⟩,
    c4_addEvent_min sampleSched 2 0 30 (by norm_num) (by norm_num [I64MAX])⟩

end Moestation

namespace Moestation

/-- Bits of `1 <<< n` : only bit n is set. -/
theorem one_shiftLeft_testBit (n i : Nat) : (1 <<< n).testBit i = decide (n = i) := by
  rw [Nat.one_shiftLeft, Nat.testBit_two_pow]

/-- Testing `x &&& (1 <<< n) ≠ 0` is testing bit n of x. -/
theorem and_one_shiftLeft_ne_zero (x n : Nat) :
    (x &&& (1 <<< n) ≠ 0) ↔ x.testBit n = true := by
  rw [Nat.one_shiftLeft, Nat.and_two_pow]
  cases h : x.testBit n <;> simp

/-- Setting bit n via `x ||| (1 <<< n)` makes bit n read true. -/
theorem or_one_shiftLeft_testBit_self (x n : Nat) :
    (x ||| (1 <<< n)).testBit n = true := by
  rw [Nat.testBit_or, one_shiftLeft_testBit]
  simp

/-- Setting bit n via `x ||| (1 <<< n)` leaves every other bit alone. -/
theorem or_one_shiftLeft_testBit_ne (x n i : Nat) (h : n ≠ i) :
    (x ||| (1 <<< n)).testBit i = x.testBit i := by
  rw [Nat.testBit_or, one_shiftLeft_testBit, decide_eq_false h]
  simp

end Moestation

namespace Moestation.Intc

/-! ## Interrupt controllers (core/intc.cpp) -/

/-- IOP interrupt controller state: I_STAT, I_MASK, I_CTRL and the COP0
interrupt-pending line driven by checkInterruptIOP. -/
structure IopIntc where
  iSTAT : Nat
  iMASK : Nat
  iCTRL : Bool
  cop0IntPending : Bool
deriving DecidableEq, Repr

/-- Embeds checkInterruptIOP (intc.cpp): the COP0 pending line is
`iCTRL && (iSTAT & iMASK)`. -/
def checkInterruptIOP (s : IopIntc) : IopIntc :=
  { s with cop0IntPending := s.iCTRL && decide (s.iSTAT &&& s.iMASK ≠ 0) }

/-- Embeds writeStatIOP (intc.cpp line 97): `iSTAT = iSTAT & data`, then the
pending line is refreshed. -/
def writeStatIOP (s : IopIntc) (data : Nat) : IopIntc :=
  checkInterruptIOP { s with iSTAT := s.iSTAT &&& data }

/-- Embeds writeMaskIOP (intc.cpp): `iMASK = data & 0x3FFFFFF`. -/
def writeMaskIOP (s : IopIntc) (data : Nat) : IopIntc :=
  checkInterruptIOP { s with iMASK := data &&& 0x3FFFFFF }

/-- Embeds sendInterruptIOP (intc.cpp): sets bit i of I_STAT and refreshes the
pending line. The source indices follow the iopIntNames table: VBLANKStart 0,
GPU 1, CDVD 2, DMA 3, ..., VBLANKEnd 11. -/
def sendInterruptIOP (s : IopIntc) (i : Nat) : IopIntc :=
  checkInterruptIOP { s with iSTAT := s.iSTAT ||| (1 <<< i) }

/-- Modelled from the spec: the EE-side sendInterrupt body is not under src/
(only its caller in gs.cpp is). Per spec section 4.3 an EE interrupt source
raises its INTC_STAT bit, and per section 8 VBLANKStart is bit 2 (VBLANKEnd
being the following source, bit 3). -/
def sendInterrupt (stat : Nat) (i : Nat) : Nat := stat ||| (1 <<< i)

end Moestation.Intc

namespace Moestation

open Intc

/-- Sample IOP INTC state used by the C2 counterexample and witness. -/
def sampleIntc : IopIntc :=
  { iSTAT := 5, iMASK := 0, iCTRL := false, cop0IntPending := false }

/-- Counterexample to claim C2: with I_STAT = 5, writing 5 leaves both set
bits set (the source ANDs I_STAT with the written value), whereas the claim
says every bit set in the written value becomes 0. -/
theorem c2_writeStatIOP_counterexample :
    Nat.testBit 5 0 = true ∧ (writeStatIOP sampleIntc 5).iSTAT.testBit 0 = true :=
  ⟨by decide, by decide⟩

/-- Claim C2 (amended): a 32-bit write of v to IOP I_STAT ANDs the register
with v: every bit position that is clear in v becomes 0, and every bit
position that is set in v keeps its previous I_STAT value (write-0-to-clear,
not write-1-to-clear); I_MASK is untouched and the COP0 pending line is
recomputed from the new value. -/
theorem c2_writeStatIOP (s : IopIntc) (v i : Nat) :
    (v.testBit i = false → (writeStatIOP s v).iSTAT.testBit i = false) ∧
    (v.testBit i = true → (writeStatIOP s v).iSTAT.testBit i = s.iSTAT.testBit i) ∧
    (writeStatIOP s v).iMASK = s.iMASK ∧
    (writeStatIOP s v).cop0IntPending
      = (s.iCTRL && decide ((s.iSTAT &&& v) &&& s.iMASK ≠ 0)) := by
  refine ⟨?_, ?_, rfl, rfl⟩
  · intro hv
    show (s.iSTAT &&& v).testBit i = false
    rw [Nat.testBit_and, hv, Bool.and_false]
  · intro hv
    show (s.iSTAT &&& v).testBit i = s.iSTAT.testBit i
    rw [Nat.testBit_and, hv, Bool.and_true]

/-- Witness for the amended C2: writing 4 to an I_STAT of 5 clears bit 0
(clear in the written value) and keeps bit 2 (set in the written value). -/
theorem c2_writeStatIOP_witness :
    (Nat.testBit 4 0 = false ∧ (writeStatIOP sampleIntc 4).iSTAT.testBit 0 = false) ∧
    (Nat.testBit 4 2 = true ∧
      (writeStatIOP sampleIntc 4).iSTAT.testBit 2 = sampleIntc.iSTAT.testBit 2) :=
  ⟨⟨by decide, (c2_writeStatIOP sampleIntc 4 0).1 (by decide)⟩,
   ⟨by decide, (c2_writeStatIOP sampleIntc 4 2).2.1 (by decide)⟩⟩

end Moestation

namespace Moestation.IopDmac

/-! ## IOP DMAC (core/iop/dmac/dmac.cpp) -/

/-- Embeds struct ChannelControl (D_CHCR fields). -/
structure ChannelControl where
  dir : Bool
  dec : Bool
  tte : Bool
  mod : Nat
  cpd : Nat
  cpc : Nat
  str : Bool
  fst : Bool
  spf : Bool
deriving DecidableEq, Repr

/-- Embeds struct DMAChannel. -/
structure DMAChannel where
  chcr : ChannelControl
  size : Nat
  count : Nat
  madr : Nat
  tadr : Nat
  len : Nat
  drq : Bool
  isTagEnd : Bool
deriving DecidableEq, Repr

/-- Embeds struct DICR. -/
structure DICR where
  sie : Nat
  bef : Bool
  im : Nat
  mie : Bool
  ip : Nat
  mif : Bool
deriving DecidableEq, Repr

/-- Embeds struct DICR2. -/
structure DICR2 where
  tie : Nat
  im : Nat
  ip : Nat
deriving DecidableEq, Repr

/-- Interrupt-control state of the IOP DMAC: DICR, DICR2 and the DMACINTEN
bits cie (channel interrupt enable) and mid (master interrupt disable). -/
structure IntCtl where
  dicr : DICR
  dicr2 : DICR2
  cie : Bool
  mid : Bool
deriving DecidableEq, Repr

/-- Embeds checkInterrupt (dmac.cpp lines 302-310): recomputes DICR.mif and
reports whether an IOP DMA interrupt is sent (rising edge of mif with mid
clear). -/
def checkInterrupt (s : IntCtl) : IntCtl × Bool :=
  let oldMIF := s.dicr.mif
  let mif := s.cie &&
    (s.dicr.bef || (s.dicr.mie && (decide (s.dicr.ip ≠ 0) || decide (s.dicr2.ip ≠ 0))))
  ({ s with dicr := { s.dicr with mif := mif } }, !oldMIF && mif && !s.mid)

/-- Embeds transferEndEvent (dmac.cpp lines 116-135): clears isTagEnd and
CHCR.str, records the pending bit of the channel only when the matching mask bit
is currently set (DICR for channels below 7, DICR2 above), then recomputes
the master interrupt flag. -/
def transferEndEvent (chnID : Nat) (chn : DMAChannel) (s : IntCtl) :
    DMAChannel × IntCtl × Bool :=
  let chn := { chn with isTagEnd := false, chcr := { chn.chcr with str := false } }
  let s :=
    if chnID < 7 then
      if s.dicr.im &&& (1 <<< chnID) ≠ 0 then
        { s with dicr := { s.dicr with ip := s.dicr.ip ||| (1 <<< chnID) } }
      else s
    else
      if s.dicr2.im &&& (1 <<< (chnID - 7)) ≠ 0 then
        { s with dicr2 := { s.dicr2 with ip := s.dicr2.ip ||| (1 <<< (chnID - 7)) } }
      else s
  let r := checkInterrupt s
  (chn, r.1, r.2)

end Moestation.IopDmac

namespace Moestation

open IopDmac

/-- Claim C7: every recomputation of the master interrupt flag sets
DICR.mif = cie && (bef || (mie && (ip != 0 || dicr2.ip != 0))), and an IOP
DMA interrupt is sent exactly when mif rises from false to true while mid is
false. -/
theorem c7_dicr_gating (s : IntCtl) :
    (checkInterrupt s).1.dicr.mif
      = (s.cie &&
          (s.dicr.bef || (s.dicr.mie && (decide (s.dicr.ip ≠ 0) || decide (s.dicr2.ip ≠ 0))))) ∧
    ((checkInterrupt s).2 = true ↔
      (s.dicr.mif = false ∧ (checkInterrupt s).1.dicr.mif = true ∧ s.mid = false)) := by
  refine ⟨rfl, ?_⟩
  show (!s.dicr.mif && _ && !s.mid) = true ↔ _
  cases s.dicr.mif <;> cases s.mid <;> simp [checkInterrupt]

/-- Claim C10: on every IOP DMAC transfer-end event, isTagEnd and CHCR.str
are cleared, and the interrupt-pending bit of the channel (DICR below channel 7,
DICR2 from 7 up) is newly recorded only when the matching mask bit is set at
that moment: with the mask bit set the pending bit ends up set, with it clear
the pending bit keeps its previous value, so a masked completion is never
latched. -/
theorem c10_transferEnd (chnID : Nat) (chn : DMAChannel) (s : IntCtl) :
    (transferEndEvent chnID chn s).1.isTagEnd = false ∧
    (transferEndEvent chnID chn s).1.chcr.str = false ∧
    (chnID < 7 →
      (s.dicr.im.testBit chnID = true →
        (transferEndEvent chnID chn s).2.1.dicr.ip.testBit chnID = true) ∧
      (s.dicr.im.testBit chnID = false →
        (transferEndEvent chnID chn s).2.1.dicr.ip.testBit chnID
          = s.dicr.ip.testBit chnID)) ∧
    (7 ≤ chnID →
      (s.dicr2.im.testBit (chnID - 7) = true →
        (transferEndEvent chnID chn s).2.1.dicr2.ip.testBit (chnID - 7) = true) ∧
      (s.dicr2.im.testBit (chnID - 7) = false →
        (transferEndEvent chnID chn s).2.1.dicr2.ip.testBit (chnID - 7)
          = s.dicr2.ip.testBit (chnID - 7))) := by
  refine ⟨rfl, rfl, ?_, ?_⟩
  · intro hlt
    constructor
    · intro hm
      unfold transferEndEvent
      rw [if_pos hlt, if_pos ((and_one_shiftLeft_ne_zero _ _).mpr hm)]
      exact or_one_shiftLeft_testBit_self _ _
    · intro hm
      unfold transferEndEvent
      rw [if_pos hlt,
        if_neg (fun hne => by rw [(and_one_shiftLeft_ne_zero _ _).mp hne] at hm; cases hm)]
      rfl
  · intro hge
    have hlt : ¬chnID < 7 := by omega
    constructor
    · intro hm
      unfold transferEndEvent
      rw [if_neg hlt, if_pos ((and_one_shiftLeft_ne_zero _ _).mpr hm)]
      exact or_one_shiftLeft_testBit_self _ _
    · intro hm
      unfold transferEndEvent
      rw [if_neg hlt,
        if_neg (fun hne => by rw [(and_one_shiftLeft_ne_zero _ _).mp hne] at hm; cases hm)]
      rfl

/-- Sample DMA channel used by witnesses: SIF0 mid-transfer flags set. -/
def sampleChn : DMAChannel :=
  { chcr := { dir := false, dec := false, tte := true, mod := 1, cpd := 0, cpc := 0,
              str := true, fst := false, spf := false },
    size := 0, count := 0, madr := 0x2000, tadr := 0x1000, len := 0,
    drq := false, isTagEnd := true }

/-- Sample DICR state: channel 9 (SIF0) mask bit set in DICR2, channel 3 mask
clear in DICR, master interrupt enabled. -/
def sampleIntCtl : IntCtl :=
  { dicr := { sie := 0, bef := false, im := 0, mie := true, ip := 0, mif := false },
    dicr2 := { tie := 0, im := 4, ip := 0 },
    cie := true, mid := false }

/-- Witness for C10 at channel 9 (SIF0): the DICR2 mask bit 2 is set, so the
pending bit 2 is recorded; flags are cleared. -/
theorem c10_transferEnd_witness :
    ((7 : Nat) ≤ 9 ∧ sampleIntCtl.dicr2.im.testBit 2 = true) ∧
    ((transferEndEvent 9 sampleChn sampleIntCtl).1.isTagEnd = false ∧
      (transferEndEvent 9 sampleChn sampleIntCtl).1.chcr.str = false ∧
      (transferEndEvent 9 sampleChn sampleIntCtl).2.1.dicr2.ip.testBit 2 = true) :=
  ⟨⟨by decide, by decide⟩,
    ⟨(c10_transferEnd 9 sampleChn sampleIntCtl).1,
     (c10_transferEnd 9 sampleChn sampleIntCtl).2.1,
     ((c10_transferEnd 9 sampleChn sampleIntCtl).2.2.2 (by decide)).1 (by decide)⟩⟩

end Moestation

namespace Moestation.Timer

/-! ## EE timers (core/ee/timer/timer.cpp) and IOP timers -/

/-- Embeds struct Mode (T_MODE). -/
structure TimerMode where
  clks : Nat
  gate : Bool
  gats : Bool
  gatm : Nat
  zret : Bool
  cue : Bool
  cmpe : Bool
  ovfe : Bool
  equf : Bool
  ovff : Bool
deriving DecidableEq, Repr

/-- Embeds struct Timer (EE side). -/
structure EETimer where
  mode : TimerMode
  count : Nat
  comp : Nat
  hold : Nat
  subcount : Nat
  prescaler : Nat
deriving DecidableEq, Repr

/-- Embeds one iteration of stepHBLANK (timer.cpp lines 124-150): a timer
with count-up enabled and clock source 3 (HBLANK) advances its counter once;
on compare match EQUF is set when enabled and not yet set (the debug-only
assert(false) there is ignored, as in an NDEBUG build) and ZRET clears the
counter; otherwise an overflow into bit 16 sets OVFF when enabled. -/
def stepTimerHBLANK (t : EETimer) : EETimer :=
  if !t.mode.cue || decide (t.mode.clks ≠ 3) then t
  else
    let count := (t.count + 1) % 2 ^ 32
    if count = t.comp then
      let mode := if t.mode.cmpe && !t.mode.equf then { t.mode with equf := true } else t.mode
      let count₂ := if t.mode.zret then 0 else count
      { t with count := count₂, mode := mode }
    else if count.testBit 16 then
      let mode := if t.mode.ovfe && !t.mode.ovff then { t.mode with ovff := true } else t.mode
      { t with count := count, mode := mode }
    else { t with count := count }

/-- Embeds stepHBLANK (timer.cpp): every EE timer takes one HBLANK step. -/
def stepHBLANK (ts : List EETimer) : List EETimer := ts.map stepTimerHBLANK

/-- Modelled from the spec: the IOP timer module is not under src/ (gs.cpp
calls iop::timer::stepHBLANK on it). Per spec section 4.8, IOP timers whose
clock source is HBLANK tick exactly once per HBLANK event. -/
structure IOPTimer where
  count : Nat
  hblankSource : Bool
deriving DecidableEq, Repr

/-- Modelled from the spec: one HBLANK step of a single IOP timer ticks it
when its clock source is HBLANK. -/
def stepIOPTimerHBLANK (t : IOPTimer) : IOPTimer :=
  if t.hblankSource then { t with count := t.count + 1 } else t

/-- Modelled from the spec: one IOP HBLANK step ticks each HBLANK-sourced
timer once. -/
def stepHBLANKIOP (ts : List IOPTimer) : List IOPTimer :=
  ts.map stepIOPTimerHBLANK

end Moestation.Timer

namespace Moestation.GS

/-! ## GS scanline loop (core/gs/gs.cpp) -/

/-- Embeds CYCLES_PER_SCANLINE (gs.cpp line 26). -/
def CYCLES_PER_SCANLINE : Int := 2 * 9370

/-- Embeds SCANLINES_PER_VDRAW (gs.cpp line 27). -/
def SCANLINES_PER_VDRAW : Int := 240

/-- Embeds SCANLINES_PER_FRAME (gs.cpp line 28). -/
def SCANLINES_PER_FRAME : Int := 262

/-- State touched by the HBLANK callback: CSR, the line counter, the EE and
IOP timer files, EE INTC_STAT, the IOP INTC, and the list of cycle delays of
the scheduler::addEvent calls made for the HBLANK event itself. -/
structure GSState where
  csr : Nat
  lineCounter : Int
  eeTimers : List Timer.EETimer
  iopTimers : List Timer.IOPTimer
  intcSTAT : Nat
  iop : Intc.IopIntc
  scheduledHBLANK : List Int

/-- Embeds hblankEvent (gs.cpp lines 227-249): ticks the HBLANK-sourced EE
and IOP timers, ORs CSR bit 2, increments the line counter; at line 240
raises VBLANKStart on both INTCs, sets CSR.VBLANK and toggles CSR.FIELD; at
line 262 raises VBLANKEnd on both INTCs and wraps the counter; finally
re-adds itself CYCLES_PER_SCANLINE + c cycles ahead (c being the residual). -/
def hblankEvent (c : Int) (s : GSState) : GSState :=
  let s₁ := { s with eeTimers := Timer.stepHBLANK s.eeTimers,
                     iopTimers := Timer.stepHBLANKIOP s.iopTimers,
                     csr := s.csr ||| (1 <<< 2),
                     lineCounter := s.lineCounter + 1 }
  let s₂ :=
    if s₁.lineCounter = SCANLINES_PER_VDRAW then
      { s₁ with intcSTAT := Intc.sendInterrupt s₁.intcSTAT 2,
                iop := Intc.sendInterruptIOP s₁.iop 0,
                csr := (s₁.csr ||| (1 <<< 3)) ^^^ (1 <<< 13) }
    else if s₁.lineCounter = SCANLINES_PER_FRAME then
      { s₁ with intcSTAT := Intc.sendInterrupt s₁.intcSTAT 3,
                iop := Intc.sendInterruptIOP s₁.iop 11,
                lineCounter := 0 }
    else s₁
  { s₂ with scheduledHBLANK := s₂.scheduledHBLANK ++ [CYCLES_PER_SCANLINE + c] }

end Moestation.GS

namespace Moestation

/-- Bit n is unchanged when a different bit is XOR-toggled. -/
theorem xor_one_shiftLeft_testBit_ne (x n i : Nat) (h : n ≠ i) :
    (x ^^^ (1 <<< n)).testBit i = x.testBit i := by
  rw [Nat.testBit_xor, one_shiftLeft_testBit, decide_eq_false h]
  cases x.testBit i <;> rfl

/-- Bit n is flipped by XOR-toggling it. -/
theorem xor_one_shiftLeft_testBit_self (x n : Nat) :
    (x ^^^ (1 <<< n)).testBit n = !x.testBit n := by
  rw [Nat.testBit_xor, one_shiftLeft_testBit, decide_eq_true rfl]
  cases x.testBit n <;> rfl

/-- Claim C5: every firing of the HBLANK callback sets CSR bit 2, steps the
HBLANK-sourced timers exactly once (a counter with count-up enabled and clock
source HBLANK that is not being ZRET-reset advances by exactly one), and
increments the line counter by one; the firing reaching line 240 sets
CSR.VBLANK (bit 3), toggles CSR.FIELD (bit 13) and raises VBLANKStart on the
EE INTC (bit 2) and the IOP INTC (bit 0); the firing reaching line 262
raises VBLANKEnd on both (EE bit 3, IOP bit 11) and wraps the counter to 0;
and the callback always re-schedules itself CYCLES_PER_SCANLINE = 2 * 9370
cycles later with the residual c rolled in. -/
theorem c5_hblank_scanline (s : GS.GSState) (c : Int) :
    (GS.hblankEvent c s).csr.testBit 2 = true ∧
    (GS.hblankEvent c s).eeTimers = Timer.stepHBLANK s.eeTimers ∧
    (GS.hblankEvent c s).iopTimers = Timer.stepHBLANKIOP s.iopTimers ∧
    (∀ t : Timer.EETimer, t.mode.cue = true → t.mode.clks = 3 →
      ((t.count + 1) % 2 ^ 32 = t.comp → t.mode.zret = false) →
      (Timer.stepTimerHBLANK t).count = (t.count + 1) % 2 ^ 32) ∧
    (∀ t : Timer.IOPTimer, t.hblankSource = true →
      (Timer.stepIOPTimerHBLANK t).count = t.count + 1) ∧
    (GS.hblankEvent c s).lineCounter
      = (if s.lineCounter + 1 = 262 then 0 else s.lineCounter + 1) ∧
    (s.lineCounter + 1 = 240 →
      (GS.hblankEvent c s).csr.testBit 3 = true ∧
      (GS.hblankEvent c s).csr.testBit 13 = !s.csr.testBit 13 ∧
      (GS.hblankEvent c s).intcSTAT.testBit 2 = true ∧
      (GS.hblankEvent c s).iop.iSTAT.testBit 0 = true) ∧
    (s.lineCounter + 1 = 262 →
      (GS.hblankEvent c s).intcSTAT.testBit 3 = true ∧
      (GS.hblankEvent c s).iop.iSTAT.testBit 11 = true ∧
      (GS.hblankEvent c s).lineCounter = 0) ∧
    (GS.hblankEvent c s).scheduledHBLANK
      = s.scheduledHBLANK ++ [GS.CYCLES_PER_SCANLINE + c] ∧
    GS.CYCLES_PER_SCANLINE = 2 * 9370 := by
  have hstep : ∀ t : Timer.EETimer, t.mode.cue = true → t.mode.clks = 3 →
      ((t.count + 1) % 2 ^ 32 = t.comp → t.mode.zret = false) →
      (Timer.stepTimerHBLANK t).count = (t.count + 1) % 2 ^ 32 := by
    intro t hcue hclks hz
    unfold Timer.stepTimerHBLANK
    rw [if_neg (by rw [hcue, hclks]; simp)]
    by_cases hcomp : (t.count + 1) % 2 ^ 32 = t.comp
    · rw [if_pos hcomp]
      dsimp only
      rw [hz hcomp]
      rfl
    · rw [if_neg hcomp]
      by_cases hb : ((t.count + 1) % 2 ^ 32).testBit 16
      · rw [if_pos hb]
      · rw [if_neg hb]
  have hstepIOP : ∀ t : Timer.IOPTimer, t.hblankSource = true →
      (Timer.stepIOPTimerHBLANK t).count = t.count + 1 := by
    intro t ht
    unfold Timer.stepIOPTimerHBLANK
    rw [if_pos ht]
  unfold GS.hblankEvent
  dsimp only
  by_cases h240 : s.lineCounter + 1 = (240 : Int)
  · rw [if_pos (show s.lineCounter + 1 = GS.SCANLINES_PER_VDRAW from h240)]
    dsimp only
    refine ⟨?_, rfl, rfl, hstep, hstepIOP, ?_, ?_, ?_, rfl, rfl⟩
    · rw [xor_one_shiftLeft_testBit_ne _ 13 2 (by omega),
        or_one_shiftLeft_testBit_ne _ 3 2 (by omega),
        or_one_shiftLeft_testBit_self]
    · rw [if_neg (by omega)]
    · intro _
      refine ⟨?_, ?_, ?_, ?_⟩
      · rw [xor_one_shiftLeft_testBit_ne _ 13 3 (by omega),
          or_one_shiftLeft_testBit_self]
      · rw [xor_one_shiftLeft_testBit_self,
          or_one_shiftLeft_testBit_ne _ 3 13 (by omega),
          or_one_shiftLeft_testBit_ne _ 2 13 (by omega)]
      · exact or_one_shiftLeft_testBit_self _ _
      · exact or_one_shiftLeft_testBit_self _ _
    · intro h262
      omega
  · rw [if_neg (show ¬s.lineCounter + 1 = GS.SCANLINES_PER_VDRAW from h240)]
    by_cases h262 : s.lineCounter + 1 = (262 : Int)
    · rw [if_pos (show s.lineCounter + 1 = GS.SCANLINES_PER_FRAME from h262)]
      dsimp only
      refine ⟨?_, rfl, rfl, hstep, hstepIOP, ?_, ?_, ?_, rfl, rfl⟩
      · exact or_one_shiftLeft_testBit_self _ _
      · rw [if_pos h262]
      · intro h240x
        omega
      · intro _
        exact ⟨or_one_shiftLeft_testBit_self _ _, or_one_shiftLeft_testBit_self _ _, rfl⟩
    · rw [if_neg (show ¬s.lineCounter + 1 = GS.SCANLINES_PER_FRAME from h262)]
      dsimp only
      refine ⟨?_, rfl, rfl, hstep, hstepIOP, ?_, ?_, ?_, rfl, rfl⟩
      · exact or_one_shiftLeft_testBit_self _ _
      · rw [if_neg (by omega)]
      · intro h240x
        omega
      · intro h262x
        omega

/-- Sample GS state one line before VBLANK start, used by the C5 witness. -/
def sampleGS : GS.GSState :=
  { csr := 0, lineCounter := 239,
    eeTimers := [], iopTimers := [],
    intcSTAT := 0, iop := { iSTAT := 0, iMASK := 0, iCTRL := false, cop0IntPending := false },
    scheduledHBLANK := [] }

/-- Witness for C5 at line counter 239 with residual -3: CSR gains HBLANK and
VBLANK bits, FIELD toggles, both VBLANKStart bits rise, and the callback
re-schedules itself 2 * 9370 - 3 cycles ahead. -/
theorem c5_hblank_scanline_witness :
    (sampleGS.lineCounter + 1 = 240) ∧
    ((GS.hblankEvent (-3) sampleGS).csr.testBit 2 = true ∧
      (GS.hblankEvent (-3) sampleGS).csr.testBit 3 = true ∧
      (GS.hblankEvent (-3) sampleGS).csr.testBit 13 = !sampleGS.csr.testBit 13 ∧
      (GS.hblankEvent (-3) sampleGS).intcSTAT.testBit 2 = true ∧
      (GS.hblankEvent (-3) sampleGS).iop.iSTAT.testBit 0 = true ∧
      (GS.hblankEvent (-3) sampleGS).lineCounter
        = (if sampleGS.lineCounter + 1 = 262 then 0 else sampleGS.lineCounter + 1) ∧
      (GS.hblankEvent (-3) sampleGS).scheduledHBLANK
        = sampleGS.scheduledHBLANK ++ [GS.CYCLES_PER_SCANLINE + (-3)]) := by
  have h := c5_hblank_scanline sampleGS (-3)
  have h240 := h.2.2.2.2.2.2.1 (by decide)
  exact ⟨by decide, h.1, h240.1, h240.2.1, h240.2.2.1, h240.2.2.2,
    h.2.2.2.2.2.1, h.2.2.2.2.2.2.2.2.1⟩

end Moestation

namespace Moestation.Cdvd

/-! ## CDVD N-command engine (core/iop/cdvd/cdvd.cpp) -/

/-- Embeds IOP_CLOCK (cdvd.cpp line 25). -/
def IOP_CLOCK : Int := 36864000

/-- Embeds READ_SPEED_CD. -/
def READ_SPEED_CD : Int := 24 * 153600

/-- Embeds READ_SPEED_DVD. -/
def READ_SPEED_DVD : Int := 4 * 1382400

/-- Fatal paths of the CDVD engine: each is an assert or an exit(0) with an
Unhandled log line in the source, or reading a parameter byte from an empty
queue (undefined in the source). -/
inductive CDVDErr where
  | unhandledNCMD
  | unhandledDVDRead
  | negativePos
  | zeroNum
  | unhandledSectorSize
  | missingParam
deriving DecidableEq, Repr

/-- CDVD device state: current N command, its status and parameter queue, the
seek parameters, drive status bytes, the read buffer fed from the disc image,
and the cycle delays of the scheduled finish-seek / request-DMA events. -/
structure CDVDState where
  ncmd : Nat
  ncmdstat : Nat
  ncmdParam : List Nat
  seekPos : Int
  seekNum : Int
  seekSize : Int
  sectorNum : Int
  oldSectorNum : Int
  drivestat : Nat
  sdrivestat : Nat
  readBuf : Nat → Nat
  readIdx : Nat
  scheduledFinishSeek : List Int
  scheduledRequestDMA : List Int
  disc : Nat → Nat

/-- Embeds setDriveStatus (cdvd.cpp): DRIVESTAT is replaced, SDRIVESTAT
accumulates. -/
def setDriveStatus (s : CDVDState) (stat : Nat) : CDVDState :=
  { s with drivestat := stat, sdrivestat := s.sdrivestat ||| stat }

/-- Embeds getBlockTiming (cdvd.cpp lines 160-166). -/
def getBlockTiming (isDVD : Bool) (size : Int) : Int :=
  if isDVD then (IOP_CLOCK * size) / READ_SPEED_DVD
  else (IOP_CLOCK * size) / READ_SPEED_CD

/-- Embeds doSeek (cdvd.cpp lines 169-195): picks the contiguous / fast /
full seek regime from the sector delta, schedules the finish-seek event at
8 * seekCycles, and sets the drive status. -/
def doSeek (s : CDVDState) : CDVDState :=
  let isDVD : Bool := s.ncmd = 8
  let delta := |s.seekPos - s.oldSectorNum|
  let seekCycles : Int :=
    if (isDVD && decide (delta < 16)) || (!isDVD && decide (delta < 8)) then
      getBlockTiming isDVD s.seekSize * delta
    else if (isDVD && decide (delta < 14764)) || (!isDVD && decide (delta < 4371)) then
      IOP_CLOCK / 33
    else IOP_CLOCK / 10
  let s₂ := { s with scheduledFinishSeek := s.scheduledFinishSeek ++ [8 * seekCycles] }
  if delta ≠ 0 then setDriveStatus s₂ (16 ||| 2) else setDriveStatus s₂ 4

/-- Embeds doReadCD (cdvd.cpp lines 197-215): sets the drive to READING,
seeks the image to size * (pos + sectorNum) and copies one sector into the
read buffer, resetting the read cursor. -/
def doReadCD (s : CDVDState) : CDVDState :=
  let s₂ := setDriveStatus s 4
  let seekPos := s.seekSize * (s.seekPos + s.sectorNum)
  { s₂ with
    readBuf := fun i => if (i : Int) < s.seekSize then s.disc (seekPos.toNat + i) else s.readBuf i,
    readIdx := 0 }

/-- Embeds finishSeekEvent (cdvd.cpp lines 120-135): a pending ReadDVD is
fatal (Unhandled DVD style reads); a CD read fills the buffer and schedules
the request-DMA event one block time ahead. -/
def finishSeekEvent (s : CDVDState) : Except CDVDErr CDVDState :=
  let isDVD : Bool := s.ncmd = 8
  if isDVD then .error .unhandledDVDRead
  else
    let s₂ := doReadCD s
    .ok { s₂ with
          scheduledRequestDMA := s₂.scheduledRequestDMA ++ [getBlockTiming isDVD s.seekSize] }

/-- Embeds ncmdReadCD (cdvd.cpp lines 218-262): pops POS (4 bytes, cast to
i32, negative fatal), NUM (4 bytes, zero fatal), two unused bytes and the
size code (only 0 = 2048 handled), then seeks. -/
def ncmdReadCD (s : CDVDState) : Except CDVDErr CDVDState :=
  match s.ncmdParam with
  | p0 :: p1 :: p2 :: p3 :: p4 :: p5 :: p6 :: p7 :: _u8 :: _u9 :: sz :: rest =>
      let pos : Nat := p0 ||| (p1 <<< 8) ||| (p2 <<< 16) ||| (p3 <<< 24)
      let posI : Int := toSigned 32 pos
      if posI < 0 then .error .negativePos
      else
        let num : Nat := p4 ||| (p5 <<< 8) ||| (p6 <<< 16) ||| (p7 <<< 24)
        if num = 0 then .error .zeroNum
        else
          match sz with
          | 0 => .ok (doSeek { s with ncmdParam := rest, seekPos := posI,
                                      seekNum := (num : Int), seekSize := 2048 })
          | _ + 1 => .error .unhandledSectorSize
  | _ => .error .missingParam

/-- Embeds doNCMD (cdvd.cpp lines 265-275): NCMDSTAT goes BUSY, then only
ReadCD (0x06) is dispatched; every other N command, ReadDVD (0x08) included,
is fatal (Unhandled N command). -/
def doNCMD (s : CDVDState) : Except CDVDErr CDVDState :=
  let s₂ := { s with ncmdstat := 1 <<< 7 }
  if s₂.ncmd = 6 then ncmdReadCD s₂ else .error .unhandledNCMD

/-- Embeds the NCMD register write (cdvd.cpp write, case NCMD): latch the
command byte and execute it. -/
def writeNCMD (s : CDVDState) (data : Nat) : Except CDVDErr CDVDState :=
  doNCMD { s with ncmd := data }

/-- Embeds getSectorSize (cdvd.cpp lines 499-503). -/
def getSectorSize (s : CDVDState) : Int :=
  if s.ncmd = 8 then 2064 else s.seekSize

end Moestation.Cdvd

namespace Moestation

open Cdvd

/-- Sample CDVD state with a full, valid ReadDVD parameter queue
(pos 100, num 1, size code 0). -/
def sampleCdvd : CDVDState :=
  { ncmd := 0, ncmdstat := 0x40,
    ncmdParam := [100, 0, 0, 0, 1, 0, 0, 0, 0, 0, 0],
    seekPos := 0, seekNum := 0, seekSize := 2048, sectorNum := 0, oldSectorNum := 0,
    drivestat := 8, sdrivestat := 8,
    readBuf := fun _ => 0, readIdx := 0,
    scheduledFinishSeek := [], scheduledRequestDMA := [],
    disc := fun _ => 0 }

/-- Counterexample to claim C8: issuing N-command 0x08 (ReadDVD) with valid
parameters does not parse and seek like ReadCD; doNCMD aborts with the
Unhandled-N-command fatal path. -/
theorem c8_readDVD_counterexample :
    writeNCMD sampleCdvd 8 = .error .unhandledNCMD := rfl

/-- Claim C8 (amended): ReadDVD is not implemented: every N-command other
than ReadCD (0x06), 0x08 included, makes doNCMD abort with the unhandled
N-command error, and a seek completing while ncmd is ReadDVD aborts with the
unhandled-DVD-read error; only the sector-size plumbing treats ReadDVD as
2064-byte sectors (getSectorSize returns 2064 for it and seekParam.size for
ReadCD). -/
theorem c8_readDVD_unhandled (s : CDVDState) :
    writeNCMD s 8 = .error .unhandledNCMD ∧
    (s.ncmd = 8 → finishSeekEvent s = .error .unhandledDVDRead) ∧
    (s.ncmd = 8 → getSectorSize s = 2064) ∧
    (s.ncmd = 6 → getSectorSize s = s.seekSize) := by
  refine ⟨rfl, ?_, ?_, ?_⟩
  · intro h8
    unfold finishSeekEvent
    rw [if_pos (decide_eq_true h8)]
  · intro h8
    unfold getSectorSize
    rw [if_pos h8]
  · intro h6
    unfold getSectorSize
    rw [if_neg (by omega)]

/-- Witness for the amended C8, at a state whose pending command is ReadDVD. -/
theorem c8_readDVD_unhandled_witness :
    ({ sampleCdvd with ncmd := 8 }.ncmd = 8) ∧
    (writeNCMD { sampleCdvd with ncmd := 8 } 8 = .error .unhandledNCMD ∧
      finishSeekEvent { sampleCdvd with ncmd := 8 } = .error .unhandledDVDRead ∧
      getSectorSize { sampleCdvd with ncmd := 8 } = 2064) :=
  ⟨rfl,
    (c8_readDVD_unhandled { sampleCdvd with ncmd := 8 }).1,
    (c8_readDVD_unhandled { sampleCdvd with ncmd := 8 }).2.1 rfl,
    (c8_readDVD_unhandled { sampleCdvd with ncmd := 8 }).2.2.1 rfl⟩

end Moestation

namespace Moestation.IopDmac

/-! ## SIF0 chain engine (core/iop/dmac/dmac.cpp doSIF0)

The SIF0 channel is index 9 of the channel table (chnNames order in
dmac.cpp). The SIF FIFO accessors and bus::readDMAC32 are declared in
headers that are not under src/, so they are modelled from the spec. -/

/-- Modelled from the spec: bus::readDMAC32 is not under src/ (only its
callers in dmac.cpp are); per spec section 4.6 it reads one 32-bit word of
IOP memory at the given byte address. The memory is a word-valued function
of the byte address. -/
def readDMAC32 (mem : Nat → Nat) (addr : Nat) : Nat := mem addr % 2 ^ 32

/-- Modelled from the spec: sif::writeSIF0 is not under src/; per spec
section 3 the SIF0 FIFO is a bounded queue of 32-bit words that the IOP DMAC
pushes into, here a list with new words appended at the back. -/
def writeSIF0 (sif0 : List Nat) (data : Nat) : List Nat := sif0 ++ [data]

/-- Modelled from the spec: sif::getSIF0Size is not under src/; it is the
SIF0 FIFO fill level. -/
def getSIF0Size (sif0 : List Nat) : Nat := sif0.length

/-- u32 subtraction with wrap-around, as `(u32)(32 - sif::getSIF0Size())`. -/
def u32sub (a b : Nat) : Nat := (a % 2 ^ 32 + 2 ^ 32 - b % 2 ^ 32) % 2 ^ 32

/-- Scheduler events the SIF0 engine can add. -/
inductive EvKind where
  | sif0Start
  | transferEnd
deriving DecidableEq, Repr

/-- Record of one scheduler::addEvent call: event, int parameter, cycle
delay, reschedule flag. -/
structure AddCall where
  kind : EvKind
  param : Nat
  cycles : Int
  resched : Bool
deriving DecidableEq, Repr

/-- Assertion failure inside the DMAC (source assert). -/
inductive DmacErr where
  | assertFailed
deriving DecidableEq, Repr

/-- Embeds doSIF0 (dmac.cpp lines 169-228). When the channel length is 0 a
64-bit DMAtag is fetched from TADR, the two words at TADR+8 and TADR+12 are
pushed into SIF0, TADR advances by 16 and the tag is decoded: MADR from the
low 24 bits, len from bits 32-51 rounded up to a multiple of 4, and
isTagEnd = dmaTag & (3 << 30). In the source `3 << 30` is a 32-bit int whose
value is -2^30, sign-extended to 0xFFFFFFFFC0000000 when ANDed with the
64-bit tag, so isTagEnd tests bits 30-63 rather than bits 30-31. Then
min(32 - fill, len, 32) words are read from MADR and pushed, the channel
registers advance, DRQ clears, the SIF0-start event is scheduled 16*len
cycles ahead, and an exhausted tag-end chain also schedules transfer-end for
channel 9. The three source asserts (dec clear, tte set, nonzero transfer
length) are the error paths. -/
def doSIF0 (chn : DMAChannel) (mem : Nat → Nat) (sif0 : List Nat) :
    Except DmacErr (DMAChannel × List Nat × List AddCall) :=
  if chn.chcr.dec then .error .assertFailed
  else if !chn.chcr.tte then .error .assertFailed
  else
    let tagged :=
      if chn.len = 0 then
        let dmaTag := readDMAC32 mem chn.tadr + 2 ^ 32 * readDMAC32 mem (chn.tadr + 4)
        let sif0 := writeSIF0 (writeSIF0 sif0 (readDMAC32 mem (chn.tadr + 8)))
          (readDMAC32 mem (chn.tadr + 12))
        let len := (dmaTag >>> 32) &&& 0xFFFFF
        let len := if len &&& 3 ≠ 0 then (len ||| 3) + 1 else len
        ({ chn with
            tadr := (chn.tadr + 16) % 2 ^ 32,
            madr := dmaTag &&& 0xFFFFFC,
            len := len,
            isTagEnd := decide (dmaTag &&& 0xFFFFFFFFC0000000 ≠ 0) }, sif0)
      else (chn, sif0)
    let chn := tagged.1
    let sif0 := tagged.2
    let len := min (u32sub 32 (getSIF0Size sif0)) (min chn.len 32)
    if len = 0 then .error .assertFailed
    else
      let sif0 := sif0 ++ (List.range len).map (fun i => readDMAC32 mem (chn.madr + 4 * i))
      let chn := { chn with
                   len := chn.len - len,
                   madr := (chn.madr + 4 * len) % 2 ^ 32,
                   drq := false }
      let calls := [AddCall.mk .sif0Start 0 (16 * len) true] ++
        (if chn.len = 0 && chn.isTagEnd then [AddCall.mk .transferEnd 9 (16 * len) false]
         else [])
      .ok (chn, sif0, calls)

end Moestation.IopDmac

namespace Moestation

open IopDmac

/-- IOP memory image for the C1 failing input: a DMAtag at 0x100 with
MADR = 0x200, len = 4 and both tag-end bits (30 and 31) clear, EE-tag words
at 0x108/0x10C, and four data words at 0x200. -/
def c1Mem : Nat → Nat := fun a =>
  if a = 0x100 then 0x200
  else if a = 0x104 then 4
  else if a = 0x108 then 0xE1
  else if a = 0x10C then 0xE2
  else if a = 0x200 then 0xD1
  else if a = 0x204 then 0xD2
  else if a = 0x208 then 0xD3
  else if a = 0x20C then 0xD4
  else 0

/-- SIF0 channel about to walk the chain at TADR = 0x100 with len = 0. -/
def c1Chn : DMAChannel :=
  { chcr := { dir := false, dec := false, tte := true, mod := 1, cpd := 0, cpc := 0,
              str := true, fst := false, spf := false },
    size := 0, count := 0, madr := 0, tadr := 0x100, len := 0,
    drq := true, isTagEnd := false }

/-- Claim C1 failing-input evaluation: for the DMAtag 0x0000000400000200
(len field 4, bits 30 and 31 both clear) the engine performs the transfer as
the claim describes except that it sets is_tag_end = true and therefore also
schedules the transfer-end event, although the decode stated by the claim,
is_tag_end = tag & (3 << 30) is zero: the source ANDs the 64-bit tag with
the sign-extended int 3 << 30, testing bits 30-63 instead of bits 30-31. -/
theorem c1_sif0_tag_end_bug :
    doSIF0 c1Chn c1Mem []
      = .ok ({ chcr := { dir := false, dec := false, tte := true, mod := 1, cpd := 0,
                         cpc := 0, str := true, fst := false, spf := false },
               size := 0, count := 0, madr := 0x210, tadr := 0x110, len := 0,
               drq := false, isTagEnd := true },
             [0xE1, 0xE2, 0xD1, 0xD2, 0xD3, 0xD4],
             [AddCall.mk .sif0Start 0 64 true, AddCall.mk .transferEnd 9 64 false]) ∧
    (readDMAC32 c1Mem c1Chn.tadr + 2 ^ 32 * readDMAC32 c1Mem (c1Chn.tadr + 4))
        &&& (3 <<< 30) = 0 :=
  ⟨by rfl, by decide⟩

end Moestation
